import Mathlib

/-
Verification of the natural-language specification of the
`marriage-analysis` Streamlit dashboard (`src/streamlit_app.py`)
against a shallow Lean embedding of its data model and operations.

The dataset is a table of marriage records; the columns the program
touches are Country, AgeGroup, Sex, MaritalStatus (categorical strings)
and the two integer columns `Data Collection (Start Year)` and
`Data Collection (End Year)`.  A dataframe is modelled as a list of
rows; an indexed dataframe (pandas keeps the original row labels of a
filtered frame) as a list of (index, row) pairs.
-/

namespace MarriageApp

/-- One record of the World Marriage Dataset, with the columns the
program reads: four categorical columns and two integer year columns. -/
structure Row where
  country : String
  ageGroup : String
  sex : String
  maritalStatus : String
  startYear : Int
  endYear : Int
deriving DecidableEq, Repr

/-- Country stage of `interactive_filters` (streamlit_app.py lines 93-95):
`if countries: data = data[data['Country'].isin(countries)]`.
An empty multiselect selection skips the stage. -/
def filterCountry (countries : List String) (data : List Row) : List Row :=
  if countries.isEmpty then data
  else data.filter (fun r => countries.contains r.country)

/-- Age-group stage of `interactive_filters` (lines 98-100). -/
def filterAgeGroup (ageGroups : List String) (data : List Row) : List Row :=
  if ageGroups.isEmpty then data
  else data.filter (fun r => ageGroups.contains r.ageGroup)

/-- Sex stage of `interactive_filters` (lines 103-105). -/
def filterSex (sexes : List String) (data : List Row) : List Row :=
  if sexes.isEmpty then data
  else data.filter (fun r => sexes.contains r.sex)

/-- `interactive_filters` (streamlit_app.py lines 89-107): the three
membership filters applied in sequence, country first, then age group,
then sex; each stage is skipped when its selection is empty. -/
def interactive_filters (countries ageGroups sexes : List String)
    (data : List Row) : List Row :=
  filterSex sexes (filterAgeGroup ageGroups (filterCountry countries data))

/-- First row of the spec's two-row example dataset
(Country=A, AgeGroup=20-29, Sex=M, MaritalStatus=Married);
the year columns are not given by the example and are chosen arbitrarily. -/
def rowA : Row :=
  { country := "A", ageGroup := "20-29", sex := "M",
    maritalStatus := "Married", startYear := 2005, endYear := 2007 }

/-- Second row of the spec's two-row example dataset
(Country=B, AgeGroup=20-29, Sex=F, MaritalStatus=Single). -/
def rowB : Row :=
  { country := "B", ageGroup := "20-29", sex := "F",
    maritalStatus := "Single", startYear := 2010, endYear := 2012 }

/-- The spec's two-row example dataset. -/
def exampleData : List Row := [rowA, rowB]

/-- Year-range filter of the Visualizations page (streamlit_app.py lines
233-234): keep the rows whose start year is at least the lower slider
bound and whose end year is at most the upper slider bound. -/
def yearRangeFilter (lo hi : Int) (data : List Row) : List Row :=
  data.filter (fun r => decide (lo ≤ r.startYear) && decide (r.endYear ≤ hi))

/-- Default lower slider bound (line 230):
`int(data['Data Collection (Start Year)'].min())`. -/
def minStartYear (data : List Row) : Int :=
  ((data.map Row.startYear).minimum).untop' 0

/-- Default upper slider bound (line 231):
`int(data['Data Collection (End Year)'].max())`. -/
def maxEndYear (data : List Row) : Int :=
  ((data.map Row.endYear).maximum).unbot' 0

/-- Row whose collection period 1995-2005 overlaps the range 2000-2010
without being contained in it; the year filter drops it. -/
def rowOverlap : Row :=
  { country := "C", ageGroup := "30-39", sex := "M",
    maritalStatus := "Married", startYear := 1995, endYear := 2005 }

/-- `value_counts` over a categorical column (used for the marital-status
distribution, streamlit_app.py line 87 and the histogram of lines
113-115): one entry per distinct value, with its number of occurrences. -/
def value_counts (l : List String) : List (String × Nat) :=
  l.dedup.map (fun v => (v, l.count v))

/-- The MaritalStatus column of a dataframe. -/
def maritalStatusColumn (data : List Row) : List String :=
  data.map Row.maritalStatus

/-- An indexed dataframe: pandas rows carry their original integer index
labels, which boolean-mask filtering preserves. -/
abbrev Frame := List (Nat × Row)

/-- A freshly loaded dataframe has the default RangeIndex 0, 1, 2, ... -/
def withIndex (data : List Row) : Frame := data.enum

/-- Country stage of `interactive_filters` on an indexed frame. -/
def filterCountryI (countries : List String) (df : Frame) : Frame :=
  if countries.isEmpty then df
  else df.filter (fun p => countries.contains p.2.country)

/-- Age-group stage of `interactive_filters` on an indexed frame. -/
def filterAgeGroupI (ageGroups : List String) (df : Frame) : Frame :=
  if ageGroups.isEmpty then df
  else df.filter (fun p => ageGroups.contains p.2.ageGroup)

/-- Sex stage of `interactive_filters` on an indexed frame. -/
def filterSexI (sexes : List String) (df : Frame) : Frame :=
  if sexes.isEmpty then df
  else df.filter (fun p => sexes.contains p.2.sex)

/-- `interactive_filters` on an indexed frame (same staging as
streamlit_app.py lines 89-107, keeping pandas row labels). -/
def interactive_filtersI (countries ageGroups sexes : List String)
    (df : Frame) : Frame :=
  filterSexI sexes (filterAgeGroupI ageGroups (filterCountryI countries df))

/-- Membership test a row must pass to survive all three filter stages:
each stage keeps the row when its selection is empty or contains the
row's value. -/
def keepRow (countries ageGroups sexes : List String) (r : Row) : Bool :=
  (countries.isEmpty || countries.contains r.country)
    && ((ageGroups.isEmpty || ageGroups.contains r.ageGroup)
      && (sexes.isEmpty || sexes.contains r.sex))

/-- Column names of the dataframe, in CSV order. -/
def csvColNames : List String :=
  ["Country", "AgeGroup", "Sex", "MaritalStatus",
   "Data Collection (Start Year)", "Data Collection (End Year)"]

/-- Cell representation of a row, one string per column, in CSV order. -/
def rowCells (r : Row) : List String :=
  [r.country, r.ageGroup, r.sex, r.maritalStatus,
   toString r.startYear, toString r.endYear]

/-- `DataFrame.to_csv()` with pandas defaults, modelled at the level of
the cell grid it serialises: a header line whose first cell is empty
(the unnamed index column), then one line per row, the row's index label
followed by its cells. -/
def to_csv (df : Frame) : List (List String) :=
  ("" :: csvColNames) :: df.map (fun p => toString p.1 :: rowCells p.2)

/-- Header fix-up of `pd.read_csv`: a column whose header cell is empty
is renamed to `Unnamed: k` for its position `k`. -/
def renameUnnamed (h : List String) : List String :=
  h.enum.map (fun p => if p.2 = "" then "Unnamed: " ++ toString p.1 else p.2)

/-- `pd.read_csv` on a cell grid: the first line is the header (empty
names replaced by `Unnamed: k`), the remaining lines are the data rows;
an empty input raises (`EmptyDataError`), modelled as `none`. -/
def read_csv (g : List (List String)) : Option (List String × List (List String)) :=
  match g with
  | [] => none
  | h :: rows => some (renameUnnamed h, rows)

/-- Bytes behind the Data Exploration page's download button
(streamlit_app.py line 76): the CSV of the page's filtered view. -/
def explorationDownload (countries ageGroups sexes : List String)
    (data : List Row) : List (List String) :=
  to_csv (interactive_filtersI countries ageGroups sexes (withIndex data))

/-- Bytes behind the Download page's download button (streamlit_app.py
line 246): `data.to_csv()` over the global, unfiltered dataset. -/
def downloadSectionCsv (data : List Row) : List (List String) :=
  to_csv (withIndex data)

/-- Mean of a numeric column, as used by `DataFrame.corr()`; exact
rational arithmetic models the numeric library's computation. -/
def colMean (xs : List ℚ) : ℚ := xs.sum / xs.length

/-- Sum of squared deviations of a column from its mean: the variance
numerator `vx` of the pairwise Pearson computation behind
`DataFrame.corr()`. -/
def ssd (xs : List ℚ) : ℚ :=
  (xs.map (fun x => (x - colMean xs) * (x - colMean xs))).sum

/-- Sum of products of deviations of two columns from their means: the
covariance numerator `covxy` of the Pearson computation. -/
def scov (xs ys : List ℚ) : ℚ :=
  (List.zipWith (fun a b => (a - colMean xs) * (b - colMean ys)) xs ys).sum

/-- One entry of `numeric_data.corr()`: `covxy / sqrt(vx * vy)`, clipped
to [-1, 1]; when the divisor `sqrt(vx * vy)` is zero (equivalently, since
`vx, vy ≥ 0`, when `vx * vy = 0`, e.g. a constant column) the entry is
NaN, modelled as `none`. -/
noncomputable def corrEntry (xs ys : List ℚ) : Option ℝ :=
  if ssd xs * ssd ys = 0 then none
  else some (max (-1) (min 1
    ((scov xs ys : ℝ) / Real.sqrt ((ssd xs : ℝ) * (ssd ys : ℝ)))))

/-- The numeric columns of the dataframe
(`data.select_dtypes(include=['number'])`): the two integer year
columns, as rational-valued lists. -/
def numericColumn (data : List Row) : Fin 2 → List ℚ
  | 0 => data.map (fun r => (r.startYear : ℚ))
  | 1 => data.map (fun r => (r.endYear : ℚ))

/-- The correlation matrix `numeric_data.corr()` computed by
`correlation_analysis` (streamlit_app.py line 140). -/
noncomputable def corrMatrix (data : List Row) (i j : Fin 2) : Option ℝ :=
  corrEntry (numericColumn data i) (numericColumn data j)

/-- Names of the numeric columns of the dataset. -/
def numericColNames : List String :=
  ["Data Collection (Start Year)", "Data Collection (End Year)"]

/-- `numeric_data.empty` (pandas `DataFrame.empty`): true when either
axis of the numeric subframe has length zero, i.e. the filtered data has
no rows or the dataset has no numeric columns. -/
def numericEmpty (data : List Row) : Bool :=
  data.isEmpty || numericColNames.isEmpty

/-- Outputs of `correlation_analysis` (streamlit_app.py lines 127-163):
`none` when the numeric subframe is empty (message shown, early return
at line 136); otherwise the correlation matrix together with the
scatter-plot column pair, which is itself `none` when fewer than two
numeric columns exist (message shown, lines 162-163). -/
noncomputable def correlation_analysis (data : List Row) :
    Option ((Fin 2 → Fin 2 → Option ℝ) × Option (List ℚ × List ℚ)) :=
  if numericEmpty data then none
  else some (corrMatrix data,
    if 2 ≤ numericColNames.length then
      some (numericColumn data 0, numericColumn data 1)
    else none)

/-- Outlier analysis of `data_quality_checks` (streamlit_app.py lines
193-209): `none` when the numeric subframe is empty (message shown,
early return at line 201); otherwise the boxplot data, one numeric
column per plot. -/
def outlier_boxplots (data : List Row) : Option (List (List ℚ)) :=
  if numericEmpty data then none
  else some [numericColumn data 0, numericColumn data 1]

/-- One user interaction deriving a view from the dataset: the Data
Exploration page's filter triple, the Visualizations page's country,
age-group or year-range selection, or the Download page. -/
inductive Interaction where
  | explore (countries ageGroups sexes : List String)
  | visualizeCountry (c : String)
  | visualizeAge (a : String)
  | visualizeYears (lo hi : Int)
  | download

/-- The derived view an interaction renders or exports, recomputed from
the dataset: every page reads the loaded `data` and builds a new frame
by boolean-mask selection (which copies); no operation in the source
assigns into `data` or uses an in-place update. -/
def viewOf (data : List Row) : Interaction → List Row
  | .explore cs as ss => interactive_filters cs as ss data
  | .visualizeCountry c => data.filter (fun r => r.country == c)
  | .visualizeAge a => data.filter (fun r => r.ageGroup == a)
  | .visualizeYears lo hi => yearRangeFilter lo hi data
  | .download => data

/-- A session: the dataset loaded once, then a sequence of interactions,
each recomputing its view from that same dataset; the result is the
dataset as it stands after the whole session, paired with every view
produced along the way. -/
def session (data : List Row) (actions : List Interaction) :
    List Row × List (List Row) :=
  (data, actions.map (viewOf data))

end MarriageApp

namespace MarriageApp

/-- C1: each non-empty selection on a categorical column keeps exactly the
rows whose value for that column is in the selected set; an empty
selection leaves the data unchanged at that stage (and with all three
selections empty `interactive_filters` is the identity); on the two-row
example dataset, selecting Country `A` yields exactly the first row. -/
theorem c1_membership_filtering :
    (∀ (data : List Row) (cs : List String), cs ≠ [] →
      interactive_filters cs [] [] data
        = data.filter (fun r => cs.contains r.country)) ∧
    (∀ (data : List Row) (as : List String), as ≠ [] →
      interactive_filters [] as [] data
        = data.filter (fun r => as.contains r.ageGroup)) ∧
    (∀ (data : List Row) (ss : List String), ss ≠ [] →
      interactive_filters [] [] ss data
        = data.filter (fun r => ss.contains r.sex)) ∧
    (∀ data : List Row, interactive_filters [] [] [] data = data) ∧
    interactive_filters ["A"] [] [] exampleData = [rowA] := by
  refine ⟨?_, ?_, ?_, ?_, ?_⟩
  · intro data cs h
    simp [interactive_filters, filterCountry, filterAgeGroup, filterSex,
      List.isEmpty_iff, h]
  · intro data as h
    simp [interactive_filters, filterCountry, filterAgeGroup, filterSex,
      List.isEmpty_iff, h]
  · intro data ss h
    simp [interactive_filters, filterCountry, filterAgeGroup, filterSex,
      List.isEmpty_iff, h]
  · intro data
    simp [interactive_filters, filterCountry, filterAgeGroup, filterSex]
  · decide

/-- Witness for C1: the country-filter clause applied to the concrete
example dataset with the non-empty selection containing only `A`. -/
theorem c1_membership_filtering_witness :
    interactive_filters ["A"] [] [] exampleData
      = exampleData.filter (fun r => (["A"] : List String).contains r.country) :=
  c1_membership_filtering.1 exampleData ["A"] (by decide)

/-- The three-stage filter pipeline always produces a sublist of its
input: each stage either passes the data through or filters it. -/
theorem interactive_filters_sublist (data : List Row) (cs as ss : List String) :
    (interactive_filters cs as ss data).Sublist data := by
  unfold interactive_filters filterSex filterAgeGroup filterCountry
  repeat' split
  all_goals
    solve
    | exact List.Sublist.refl _
    | exact List.filter_sublist _
    | exact (List.filter_sublist _).trans (List.filter_sublist _)
    | exact ((List.filter_sublist _).trans (List.filter_sublist _)).trans
        (List.filter_sublist _)

/-- C3: for every dataset and every combination of selections, the result
of `interactive_filters` is a row subset of the input: every row of the
filtered view occurs in the input dataset. -/
theorem c3_filtered_subset (data : List Row) (cs as ss : List String) :
    ∀ r : Row, r ∈ interactive_filters cs as ss data → r ∈ data := by
  intro r hr
  exact (interactive_filters_sublist data cs as ss).mem hr

/-- Witness for C3: on the example dataset with the Country selection
containing only `A`, the single surviving row is a row of the input. -/
theorem c3_filtered_subset_witness :
    rowA ∈ interactive_filters ["A"] [] [] exampleData ∧ rowA ∈ exampleData :=
  ⟨by decide, c3_filtered_subset exampleData ["A"] [] [] rowA (by decide)⟩

/-- C9: with all three selections non-empty, the sequential filters of
`interactive_filters` keep exactly the rows satisfying the conjunction of
the three membership conditions, and applying the three stages in the
reverse order (sex, then age group, then country) gives the same result. -/
theorem c9_conjunction_and_order (data : List Row) (cs as ss : List String)
    (hc : cs ≠ []) (ha : as ≠ []) (hs : ss ≠ []) :
    interactive_filters cs as ss data
      = data.filter (fun r =>
          cs.contains r.country && (as.contains r.ageGroup && ss.contains r.sex)) ∧
    filterCountry cs (filterAgeGroup as (filterSex ss data))
      = interactive_filters cs as ss data := by
  have h1 : interactive_filters cs as ss data
      = data.filter (fun r =>
          cs.contains r.country && (as.contains r.ageGroup && ss.contains r.sex)) := by
    simp only [interactive_filters, filterCountry, filterAgeGroup, filterSex,
      List.isEmpty_iff, if_neg hc, if_neg ha, if_neg hs, List.filter_filter]
    exact List.filter_congr (fun r _ => by
      cases cs.contains r.country <;> cases as.contains r.ageGroup <;>
        cases ss.contains r.sex <;> rfl)
  refine ⟨h1, ?_⟩
  rw [h1]
  simp only [filterCountry, filterAgeGroup, filterSex,
    List.isEmpty_iff, if_neg hc, if_neg ha, if_neg hs, List.filter_filter]

/-- Witness for C9: the conjunction characterisation and the reversed
application order, evaluated on the example dataset with the singleton
selections Country `A`, AgeGroup `20-29`, Sex `M`. -/
theorem c9_conjunction_and_order_witness :
    interactive_filters ["A"] ["20-29"] ["M"] exampleData
      = exampleData.filter (fun r =>
          (["A"] : List String).contains r.country
            && ((["20-29"] : List String).contains r.ageGroup
              && (["M"] : List String).contains r.sex)) ∧
    filterCountry ["A"] (filterAgeGroup ["20-29"] (filterSex ["M"] exampleData))
      = interactive_filters ["A"] ["20-29"] ["M"] exampleData :=
  c9_conjunction_and_order exampleData ["A"] ["20-29"] ["M"]
    (by decide) (by decide) (by decide)

/-- C10: the year-range filter keeps exactly the rows whose start year is
at least the selected lower bound and whose end year is at most the
selected upper bound; a row whose period merely overlaps the range (start
1995, end 2005 against the range 2000-2010) is excluded; and with the
default full range (minimum start year to maximum end year) the filter
returns the whole dataset. -/
theorem c10_year_range_filter (data : List Row) (lo hi : Int)
    (hne : data ≠ []) :
    (∀ r : Row, r ∈ yearRangeFilter lo hi data
        ↔ r ∈ data ∧ lo ≤ r.startYear ∧ r.endYear ≤ hi) ∧
    rowOverlap ∉ yearRangeFilter 2000 2010 [rowOverlap] ∧
    yearRangeFilter (minStartYear data) (maxEndYear data) data = data := by
  refine ⟨?_, by decide, ?_⟩
  · intro r
    simp [yearRangeFilter, and_assoc]
  · apply List.filter_eq_self.2
    intro r hr
    have h1 : minStartYear data ≤ r.startYear := by
      have := List.minimum_le_of_mem' (List.mem_map_of_mem Row.startYear hr)
      rcases hmin : (data.map Row.startYear).minimum with _ | m
      · exact absurd (List.minimum_eq_top.1 hmin)
          (by simp [List.map_eq_nil_iff, hne])
      · rw [hmin] at this
        simpa [minStartYear, hmin] using WithTop.coe_le_coe.1 this
    have h2 : r.endYear ≤ maxEndYear data := by
      have := List.le_maximum_of_mem' (List.mem_map_of_mem Row.endYear hr)
      rcases hmax : (data.map Row.endYear).maximum with _ | m
      · exact absurd (List.maximum_eq_bot.1 hmax)
          (by simp [List.map_eq_nil_iff, hne])
      · rw [hmax] at this
        simpa [maxEndYear, hmax] using WithBot.coe_le_coe.1 this
    simp [h1, h2]

/-- C4: the per-category counts of the marital-status distribution sum to
the number of rows of the filtered dataset. -/
theorem c4_counts_sum_to_length (data : List Row) (cs as ss : List String) :
    ((value_counts (maritalStatusColumn
        (interactive_filters cs as ss data))).map Prod.snd).sum
      = (interactive_filters cs as ss data).length := by
  have h := List.sum_map_count_dedup_eq_length
    (maritalStatusColumn (interactive_filters cs as ss data))
  simpa [value_counts, List.map_map, Function.comp_def, maritalStatusColumn] using h

/-- The country stage on an indexed frame is a single filter whose
predicate is vacuously true when the selection is empty. -/
theorem filterCountryI_eq_filter (cs : List String) (df : Frame) :
    filterCountryI cs df
      = df.filter (fun p => cs.isEmpty || cs.contains p.2.country) := by
  by_cases h : cs.isEmpty <;> simp [filterCountryI, h]

/-- The age-group stage on an indexed frame as a single filter. -/
theorem filterAgeGroupI_eq_filter (as : List String) (df : Frame) :
    filterAgeGroupI as df
      = df.filter (fun p => as.isEmpty || as.contains p.2.ageGroup) := by
  by_cases h : as.isEmpty <;> simp [filterAgeGroupI, h]

/-- The sex stage on an indexed frame as a single filter. -/
theorem filterSexI_eq_filter (ss : List String) (df : Frame) :
    filterSexI ss df
      = df.filter (fun p => ss.isEmpty || ss.contains p.2.sex) := by
  by_cases h : ss.isEmpty <;> simp [filterSexI, h]

/-- The three staged filters on an indexed frame fuse into one filter by
the conjunction `keepRow` of the three per-stage conditions. -/
theorem interactive_filtersI_eq_filter (cs as ss : List String) (df : Frame) :
    interactive_filtersI cs as ss df = df.filter (fun p => keepRow cs as ss p.2) := by
  rw [interactive_filtersI, filterCountryI_eq_filter, filterAgeGroupI_eq_filter,
    filterSexI_eq_filter, List.filter_filter, List.filter_filter]
  exact List.filter_congr (fun p _ => by
    simp only [keepRow]
    cases cs.isEmpty <;> cases as.isEmpty <;> cases ss.isEmpty <;>
      cases cs.contains p.2.country <;> cases as.contains p.2.ageGroup <;>
        cases ss.contains p.2.sex <;> rfl)

/-- Counterexample for C2: on the two-row example dataset with the
Country selection containing only `A`, the bytes of the Download page's
button (the CSV of the full dataset) are not the CSV of the filtered
view, so that download does not export the filtered view. -/
theorem c2_download_page_counterexample :
    downloadSectionCsv exampleData
      ≠ to_csv (interactive_filtersI ["A"] [] [] (withIndex exampleData)) := by
  decide

/-- C2 (amended): the Data Exploration page's download button serialises
the view obtained by applying the page's filters (exactly the rows
passing `keepRow`, with their original index labels), while the Download
page's button serialises the full, unfiltered dataset, ignoring any
filter selections. -/
theorem c2_download_exports (data : List Row) (cs as ss : List String) :
    explorationDownload cs as ss data
      = ("" :: csvColNames)
          :: ((withIndex data).filter (fun p => keepRow cs as ss p.2)).map
              (fun p => toString p.1 :: rowCells p.2) ∧
    downloadSectionCsv data
      = ("" :: csvColNames)
          :: (withIndex data).map (fun p => toString p.1 :: rowCells p.2) := by
  constructor
  · rw [explorationDownload, interactive_filtersI_eq_filter]
    rfl
  · rfl

/-- Counterexample for C6: reloading the exported CSV of the one-row
filtered view does not reproduce that view's columns and rows: the
unnamed index column written by `to_csv` comes back as an extra data
column `Unnamed: 0`. -/
theorem c6_round_trip_counterexample :
    read_csv (to_csv (withIndex [rowA])) ≠ some (csvColNames, [rowCells rowA]) := by
  decide

/-- C6 (amended): reloading the exported CSV of any filtered view yields
the original columns preceded by an extra `Unnamed: 0` column holding the
old index labels, and dropping that first column reproduces exactly the
row set of the original filtered view. -/
theorem c6_round_trip (df : Frame) :
    read_csv (to_csv df)
      = some ("Unnamed: 0" :: csvColNames,
          df.map (fun p => toString p.1 :: rowCells p.2)) ∧
    (read_csv (to_csv df)).map (fun q => q.2.map List.tail)
      = some (df.map (fun p => rowCells p.2)) := by
  have hh : renameUnnamed ("" :: csvColNames) = "Unnamed: 0" :: csvColNames := by
    decide
  constructor
  · simp [read_csv, to_csv, hh]
  · simp [read_csv, to_csv, hh, List.map_map, Function.comp_def]

/-- Witness for C10: on the two-row example dataset, the membership
characterisation at the first row for the range 2000-2012, and the
default full range returning the whole dataset. -/
theorem c10_year_range_filter_witness :
    (rowA ∈ yearRangeFilter 2000 2012 exampleData
        ↔ rowA ∈ exampleData ∧ 2000 ≤ rowA.startYear ∧ rowA.endYear ≤ 2012) ∧
    yearRangeFilter (minStartYear exampleData) (maxEndYear exampleData)
        exampleData = exampleData :=
  ⟨(c10_year_range_filter exampleData 2000 2012 (by decide)).1 rowA,
   (c10_year_range_filter exampleData 2000 2012 (by decide)).2.2⟩

/-- Pointwise products of deviations commute: zipping two columns with
the centred product in either order gives the same list. -/
theorem zipWith_centered_comm (mx my : ℚ) :
    ∀ xs ys : List ℚ,
      List.zipWith (fun a b => (a - mx) * (b - my)) xs ys
        = List.zipWith (fun a b => (a - my) * (b - mx)) ys xs
  | [], ys => by cases ys <;> rfl
  | _ :: _, [] => rfl
  | _ :: xs, _ :: ys => by
    simp only [List.zipWith]
    rw [zipWith_centered_comm mx my xs ys, mul_comm]

/-- Zipping a column with itself by the centred product is the list of
squared deviations. -/
theorem zipWith_centered_self (m : ℚ) :
    ∀ xs : List ℚ,
      List.zipWith (fun a b => (a - m) * (b - m)) xs xs
        = xs.map (fun a => (a - m) * (a - m))
  | [] => rfl
  | _ :: xs => congrArg (List.cons _) (zipWith_centered_self m xs)

/-- The covariance numerator is symmetric in its two columns. -/
theorem scov_comm (xs ys : List ℚ) : scov xs ys = scov ys xs := by
  unfold scov
  rw [zipWith_centered_comm]

/-- The covariance numerator of a column with itself is its sum of
squared deviations. -/
theorem scov_self (xs : List ℚ) : scov xs xs = ssd xs := by
  unfold scov ssd
  rw [zipWith_centered_self]

/-- A sum of squared deviations is non-negative. -/
theorem ssd_nonneg (xs : List ℚ) : 0 ≤ ssd xs := by
  apply List.sum_nonneg
  intro y hy
  rcases List.mem_map.1 hy with ⟨x, _, rfl⟩
  exact mul_self_nonneg _

/-- Counterexample for C5: on the filtered view of the example dataset
under the Country selection containing only `A` (a single row, so every
numeric column is constant), the diagonal correlation entry is NaN
(`none`), not 1.0. -/
theorem c5_diagonal_counterexample :
    corrMatrix (interactive_filters ["A"] [] [] exampleData) 0 0 ≠ some 1 := by
  have hd : interactive_filters ["A"] [] [] exampleData = [rowA] := by decide
  have hz : ssd (numericColumn [rowA] 0) = 0 := by
    norm_num [ssd, colMean, numericColumn, rowA]
  rw [hd]
  simp [corrMatrix, corrEntry, hz]

/-- C5 (amended): the correlation matrix is symmetric for every dataset,
and its diagonal entry for a numeric column is 1.0 whenever that column
has a non-zero sum of squared deviations (it is NaN for a constant
column, e.g. when the filtered view has a single row). -/
theorem c5_corr_symmetric_diagonal (data : List Row) (i j : Fin 2) :
    corrMatrix data i j = corrMatrix data j i ∧
    (ssd (numericColumn data i) ≠ 0 → corrMatrix data i i = some 1) := by
  constructor
  · unfold corrMatrix corrEntry
    rw [scov_comm]
    simp only [← Rat.cast_mul]
    rw [mul_comm (ssd (numericColumn data i))]
  · intro h
    unfold corrMatrix corrEntry
    rw [scov_self, if_neg (mul_ne_zero h h)]
    have hnn : (0 : ℝ) ≤ (ssd (numericColumn data i) : ℝ) := by
      exact_mod_cast ssd_nonneg _
    rw [Real.sqrt_mul_self hnn, div_self (by exact_mod_cast h)]
    norm_num

/-- Witness for C5: on the two-row example dataset the start-year column
has non-zero sum of squared deviations, and its diagonal correlation
entry is 1.0. -/
theorem c5_corr_symmetric_diagonal_witness :
    ssd (numericColumn exampleData 0) ≠ 0 ∧
    corrMatrix exampleData 0 0 = some 1 :=
  ⟨by norm_num [ssd, colMean, numericColumn, exampleData, rowA, rowB],
   (c5_corr_symmetric_diagonal exampleData 0 0).2
     (by norm_num [ssd, colMean, numericColumn, exampleData, rowA, rowB])⟩

/-- C7: when the numeric subframe of the filtered data is empty, both
`correlation_analysis` and the outlier analysis report and skip
(returning no matrix and no boxplots); under the precondition that it is
not empty, neither error branch is taken and, the dataset having two
numeric columns, the scatter plot is produced rather than skipped;
moreover the subframe is empty exactly when the filtered data has no
rows, since the numeric column list of this dataset is never empty. -/
theorem c7_error_branches (data : List Row) :
    (numericEmpty data = true →
      correlation_analysis data = none ∧ outlier_boxplots data = none) ∧
    (numericEmpty data = false →
      correlation_analysis data
          = some (corrMatrix data,
              some (numericColumn data 0, numericColumn data 1)) ∧
        outlier_boxplots data
          = some [numericColumn data 0, numericColumn data 1]) ∧
    (numericEmpty data = data.isEmpty) := by
  refine ⟨?_, ?_, ?_⟩
  · intro h
    constructor <;> simp [correlation_analysis, outlier_boxplots, h]
  · intro h
    constructor <;>
      simp [correlation_analysis, outlier_boxplots, h, numericColNames]
  · simp [numericEmpty, numericColNames]

/-- Witness for C7: with an empty filtered view the correlation analysis
is skipped, and on the (non-empty) example dataset the correlation
matrix, scatter data and boxplots are all produced. -/
theorem c7_error_branches_witness :
    correlation_analysis ([] : List Row) = none ∧
    outlier_boxplots exampleData
      = some [numericColumn exampleData 0, numericColumn exampleData 1] :=
  ⟨((c7_error_branches ([] : List Row)).1 (by decide)).1,
   ((c7_error_branches exampleData).2.1 (by decide)).2⟩

/-- C8: the dataset is immutable after load: a session, i.e. any
sequence of user interactions each recomputing its view from the loaded
dataset, leaves the dataset unchanged, and every view produced is a row
subset (a sublist) of it. -/
theorem c8_dataset_immutable (data : List Row) (actions : List Interaction) :
    (session data actions).1 = data ∧
    ∀ v ∈ (session data actions).2, v.Sublist data := by
  refine ⟨rfl, ?_⟩
  intro v hv
  rcases List.mem_map.1 hv with ⟨a, _, rfl⟩
  cases a with
  | explore cs as ss => exact interactive_filters_sublist data cs as ss
  | visualizeCountry c => exact List.filter_sublist data
  | visualizeAge a => exact List.filter_sublist data
  | visualizeYears lo hi => exact List.filter_sublist data
  | download => exact List.Sublist.refl data

/-- Witness for C8: a session on the example dataset consisting of one
filtered exploration and one download leaves the dataset unchanged, and
the filtered view produced is a sublist of it. -/
theorem c8_dataset_immutable_witness :
    (session exampleData
        [Interaction.explore ["A"] [] [], Interaction.download]).1
      = exampleData ∧
    List.Sublist [rowA] exampleData :=
  ⟨(c8_dataset_immutable exampleData
      [Interaction.explore ["A"] [] [], Interaction.download]).1,
   (c8_dataset_immutable exampleData
      [Interaction.explore ["A"] [] [], Interaction.download]).2
     [rowA] (by decide)⟩

end MarriageApp
